import Mathlib

/-!
Shallow embedding of the state/persistence/render core of the todo-list
application, translated from:
  * `src/todo-list-typescript-main/src/models/FullList.ts` (class `FullList`),
  * the class `LitsItem` (`src/models/ListItem.ts`), whose full source is
    reproduced in the repository documentation (`doc/architecture/data-layer.md`),
  * the class `ListTemplate` (`src/templates/ListTemplate.ts`), whose full
    `render` source is reproduced in the repository documentation
    (UI rendering architecture document).

TypeScript type annotations are erased at runtime, so values flowing through
`JSON.parse` are modelled by a dynamic value type `JsValue` mirroring the
JavaScript data universe (`undefined`, `null`, booleans, numbers, strings,
arrays, plain objects).  JavaScript exceptions (`SyntaxError` from
`JSON.parse`, `TypeError` from calling a missing method or reading a property
of `null`/`undefined`) are modelled by `JsError`; a method that can throw
returns its result paired with `Option JsError`, the state component being the
state at the moment the exception escapes (JavaScript exceptions do not roll
back prior mutations).
-/

/-- The JavaScript runtime value universe, restricted to the data values this
program manipulates (no functions/symbols reach the storage layer). -/
inductive JsValue where
  | vNull : JsValue
  | vUndefined : JsValue
  | vBool : Bool → JsValue
  | vNum : Int → JsValue
  | vStr : String → JsValue
  | vArr : List JsValue → JsValue
  | vObj : List (String × JsValue) → JsValue
deriving Repr

/-- The two exception kinds the embedded code can raise: `SyntaxError` from
`JSON.parse` on unparseable text, `TypeError` from invoking `.forEach` on a
non-array or reading a property of `null`/`undefined`. -/
inductive JsError where
  | syntaxError : JsError
  | typeError : JsError
deriving Repr, DecidableEq

/-- JavaScript property read `v.name`: throws `TypeError` on `null`/`undefined`,
looks the key up on plain objects (absent key gives `undefined`), and gives
`undefined` on other values (primitives and arrays have none of the
underscore-prefixed properties this program reads). -/
def getProp : JsValue → String → Except JsError JsValue
  | .vNull, _ => .error .typeError
  | .vUndefined, _ => .error .typeError
  | .vObj fields, name => .ok ((fields.lookup name).getD .vUndefined)
  | _, _ => .ok .vUndefined

/-- A stored string abstracted by its `JSON.parse` outcome: either text that is
not valid JSON, or valid JSON text identified with its parse tree. -/
inductive Payload where
  | malformed : Payload
  | json : JsValue → Payload
deriving Repr

/-- `JSON.parse` on a stored string: `SyntaxError` on unparseable text,
otherwise the parse tree. -/
def jsonParse : Payload → Except JsError JsValue
  | .malformed => .error .syntaxError
  | .json v => .ok v

mutual
/-- `JSON.stringify` at the parse-tree level: `undefined` array elements become
`null`, object entries whose value is `undefined` are dropped, data leaves are
kept verbatim. -/
def stringifyVal : JsValue → JsValue
  | .vNull => .vNull
  | .vUndefined => .vUndefined
  | .vBool b => .vBool b
  | .vNum n => .vNum n
  | .vStr s => .vStr s
  | .vArr elems => .vArr (stringifyArr elems)
  | .vObj fields => .vObj (stringifyObj fields)

/-- Array elements under `JSON.stringify`: `undefined` serializes as `null`. -/
def stringifyArr : List JsValue → List JsValue
  | [] => []
  | x :: xs =>
      (match x with
       | .vUndefined => .vNull
       | _ => stringifyVal x) :: stringifyArr xs

/-- Object entries under `JSON.stringify`: entries with `undefined` values are
omitted from the output. -/
def stringifyObj : List (String × JsValue) → List (String × JsValue)
  | [] => []
  | (k, v) :: fs =>
      match v with
      | .vUndefined => stringifyObj fs
      | _ => (k, stringifyVal v) :: stringifyObj fs
end

/-- The `localStorage` collaborator: a mapping from keys to stored strings
(abstracted as `Payload`), `none` meaning the key is absent. -/
def Storage : Type := String → Option Payload

/-- `localStorage.getItem(key)`. -/
def getItem (st : Storage) (key : String) : Option Payload := st key

/-- `localStorage.setItem(key, value)`. -/
def setItem (st : Storage) (key : String) (value : Payload) : Storage :=
  fun k => if k = key then some value else st k

/-- `const STORAGE_KEY = "myList";` (FullList.ts). -/
def STORAGE_KEY : String := "myList"

/-- The class `LitsItem` (ListItem.ts): a plain holder of the three fields
`_id`, `_item`, `_checked`.  Its declared TypeScript types are
`string`/`string`/`boolean`, but types are erased at runtime, so the embedding
gives the fields the dynamic type `JsValue`; objects reconstructed by
`FullList.load` from arbitrary stored JSON may hold any runtime value here.
The accessors `id`/`item`/`checked` are plain reads/writes of these fields. -/
structure LitsItem where
  _id : JsValue
  _item : JsValue
  _checked : JsValue
deriving Repr

/-- `new LitsItem(id, item, checked)` as invoked by well-typed callers, with
`string`/`string`/`boolean` arguments. -/
def mkTypedItem (id : String) (item : String) (checked : Bool) : LitsItem :=
  ⟨.vStr id, .vStr item, .vBool checked⟩

/-- A `LitsItem` instance as a JavaScript object (its enumerable fields), the
form `JSON.stringify` sees. -/
def itemToJs (i : LitsItem) : JsValue :=
  .vObj [("_id", i._id), ("_item", i._item), ("_checked", i._checked)]

/-- The `_list` array as a JavaScript value. -/
def listToJs (l : List LitsItem) : JsValue :=
  .vArr (l.map itemToJs)

/-- The mutable state of the `FullList` singleton: the private fields `_list`
and `_isSubscribed`. -/
structure FullListState where
  _list : List LitsItem
  _isSubscribed : Bool
deriving Repr

/-- `save(): void` — `localStorage.setItem(STORAGE_KEY, JSON.stringify(this._list))`.
Returns the updated storage. -/
def save (s : FullListState) (st : Storage) : Storage :=
  setItem st STORAGE_KEY (.json (stringifyVal (listToJs s._list)))

/-- One iteration of `parsedList.forEach` in `load`:
`new LitsItem(itemObj._id, itemObj._item, itemObj._checked)` — three property
reads (each can throw `TypeError` on a `null` element), then construction. -/
def newListItemOf (itemObj : JsValue) : Except JsError LitsItem := do
  let i ← getProp itemObj "_id"
  let t ← getProp itemObj "_item"
  let c ← getProp itemObj "_checked"
  return ⟨i, t, c⟩

/-- The `forEach` loop of `load`, pushing each reconstructed item; if an
iteration throws, the items already pushed remain (JavaScript exceptions do
not undo prior pushes). -/
def loadLoop : List JsValue → List LitsItem → List LitsItem × Option JsError
  | [], acc => (acc, none)
  | x :: xs, acc =>
      match newListItemOf x with
      | .ok it => loadLoop xs (acc ++ [it])
      | .error e => (acc, some e)

/-- `load(): void` translated statement by statement:
1. `this._list = []` (clear existing items to avoid duplicates on reload);
2. `const storedList = localStorage.getItem(STORAGE_KEY)`;
   `if (typeof storedList !== "string") return;`
3. `const parsedList = JSON.parse(storedList)` — may throw `SyntaxError`;
4. `parsedList.forEach(...)` — a `TypeError` if the parsed value is not an
   array, else the push loop.
The result pairs the state at method exit (also on an escaping exception)
with the escaped exception, if any. -/
def load (s : FullListState) (st : Storage) : FullListState × Option JsError :=
  let s₁ : FullListState := { s with _list := [] }
  match getItem st STORAGE_KEY with
  | none => (s₁, none)
  | some storedList =>
    match jsonParse storedList with
    | .error e => (s₁, some e)
    | .ok parsedList =>
      match parsedList with
      | .vArr elems =>
          let r := loadLoop elems []
          ({ s₁ with _list := r.1 }, r.2)
      | _ => (s₁, some .typeError)

/-- `clearList(): void` — `this._list = []; this.save();`. -/
def clearList (s : FullListState) (st : Storage) : FullListState × Storage :=
  let s' : FullListState := { s with _list := [] }
  (s', save s' st)

/-- `addItem(itemObj): void` — `this._list.push(itemObj); this.save();`. -/
def addItem (s : FullListState) (itemObj : LitsItem) (st : Storage) :
    FullListState × Storage :=
  let s' : FullListState := { s with _list := s._list ++ [itemObj] }
  (s', save s' st)

/-- The test `item.id !== id` of `removeItem`'s filter: strict inequality
between the runtime value of the `id` field (any `JsValue`) and the `string`
argument — false exactly when the field is the same string. -/
def strictNeqStr (v : JsValue) (id : String) : Bool :=
  match v with
  | .vStr s => s ≠ id
  | _ => true

/-- `removeItem(id): void` —
`this._list = this._list.filter((item) => item.id !== id); this.save();`. -/
def removeItem (s : FullListState) (id : String) (st : Storage) :
    FullListState × Storage :=
  let s' : FullListState :=
    { s with _list := s._list.filter (fun item => strictNeqStr item._id id) }
  (s', save s' st)

/-- `subscribeToStorageEvents(onStorageChange)`: the boolean guard
(`if (this._isSubscribed) return; this._isSubscribed = true;`) followed by
`window.addEventListener("storage", ...)`.  The second component models
whether the storage listener is registered on the window after the call. -/
def subscribeToStorageEvents (s : FullListState) (registered : Bool) :
    FullListState × Bool :=
  if s._isSubscribed then (s, registered)
  else ({ s with _isSubscribed := true }, true)

/-- The body of the registered storage listener:
`if (event.key === STORAGE_KEY) { this.load(); onStorageChange(); }`.
`event.key` is `string | null`, hence `Option String`.  The boolean result
records whether `onStorageChange()` was invoked; an exception escaping
`this.load()` aborts the listener before `onStorageChange()` runs. -/
def storageEventHandler (eventKey : Option String) (s : FullListState)
    (st : Storage) : (FullListState × Option JsError) × Bool :=
  if eventKey = some STORAGE_KEY then
    match load s st with
    | (s', none) => ((s', none), true)
    | (s', some e) => ((s', some e), false)
  else ((s, none), false)

/-- Delivery of a `storage` event to the window: the handler runs only when it
was registered by `subscribeToStorageEvents`. -/
def dispatchStorageEvent (registered : Bool) (eventKey : Option String)
    (s : FullListState) (st : Storage) : (FullListState × Option JsError) × Bool :=
  if registered then storageEventHandler eventKey s st
  else ((s, none), false)

/-! ## The renderer (`ListTemplate`) -/

/-- One rendered `<li class="item">` row, as built by `ListTemplate.render`:
the checkbox's `id` and `checked`, the label's `htmlFor` and `textContent`,
and the delete button's text (always `"x"`). -/
structure RowNode where
  checkId : JsValue
  checkChecked : JsValue
  labelFor : JsValue
  labelText : JsValue
  buttonText : String
deriving Repr

/-- The row built for one item inside `render`'s `forEach`:
`check.id = item.id; check.checked = item.checked;
label.htmlFor = item.id; label.textContent = item.item;
button.textContent = "x"`. -/
def rowOf (item : LitsItem) : RowNode :=
  ⟨item._id, item._checked, item._id, item._item, "x"⟩

/-- `clear(): void` — `this.ul.innerHTML = ""` removes all children of the
mount point. -/
def clearUl (_ul : List RowNode) : List RowNode := []

/-- `render(fullList): void` — `this.clear()`, then for each item of
`fullList.list` in order build its row and `this.ul.prepend(li)`.  The mount
point is the list of its child rows, front first. -/
def render (ul : List RowNode) (fullListList : List LitsItem) : List RowNode :=
  fullListList.foldl (fun acc item => rowOf item :: acc) (clearUl ul)

/-- JavaScript truthiness, used by the `!` in `item.checked = !item.checked`. -/
def jsTruthy : JsValue → Bool
  | .vNull => false
  | .vUndefined => false
  | .vBool b => b
  | .vNum n => n ≠ 0
  | .vStr s => s ≠ ""
  | .vArr _ => true
  | .vObj _ => true

/-- `item.checked = !item.checked` on one item. -/
def toggleChecked (item : LitsItem) : LitsItem :=
  { item with _checked := .vBool (!(jsTruthy item._checked)) }

/-- Mutation of the `k`-th slot of `_list` through the item reference captured
by the `k`-th row's change-handler closure. -/
def toggleAt : List LitsItem → Nat → List LitsItem
  | [], _ => []
  | x :: xs, 0 => toggleChecked x :: xs
  | x :: xs, n + 1 => x :: toggleAt xs n

/-- The page state the renderer and collection act on together: the `FullList`
singleton, `localStorage`, and the mount point's children. -/
structure World where
  fullList : FullListState
  storage : Storage
  ul : List RowNode

/-- The checkbox `change` handler attached by `render` for the item at
position `k` of the rendered list:
`item.checked = !item.checked; fullList.save();` — its body touches only the
captured item and the storage; it contains no DOM operation and no call to
`render`, so the mount point's children pass through unchanged. -/
def checkboxChange (w : World) (k : Nat) : World :=
  let fl : FullListState := { w.fullList with _list := toggleAt w.fullList._list k }
  { w with fullList := fl, storage := save fl w.storage }

/-! ## Spec-side definition for the malformed-payload claim -/

/-- Follows the spec's words (not the source): one stored record of the shape
`{id, text, completed}` — an object whose `_id`/`_item` are strings and whose
`_checked` is a boolean (the stored field names carry the implementation's
underscore prefix). -/
def specShapedRecord : JsValue → Bool
  | .vObj fields =>
      (match fields.lookup "_id" with | some (.vStr _) => true | _ => false)
      && (match fields.lookup "_item" with | some (.vStr _) => true | _ => false)
      && (match fields.lookup "_checked" with | some (.vBool _) => true | _ => false)
  | _ => false

/-- Follows the spec's words (not the source): a stored payload that is
well-formed JSON consisting of `{id, text, completed}`-shaped records. -/
def specWellFormedPayload : Payload → Bool
  | .malformed => false
  | .json (.vArr elems) => elems.all specShapedRecord
  | .json _ => false

/-- The serialized form `save` writes for a given in-memory list. -/
def serializedOf (l : List LitsItem) : Payload :=
  .json (stringifyVal (listToJs l))

/-! ## Helper lemmas -/

theorem setItem_overwrite (st : Storage) (k : String) (v w : Payload) :
    setItem (setItem st k v) k w = setItem st k w := by
  funext k'
  by_cases h : k' = k <;> simp [setItem, h]

theorem getItem_save (s : FullListState) (st : Storage) :
    getItem (save s st) STORAGE_KEY = some (serializedOf s._list) := by
  simp [save, setItem, getItem, serializedOf]

theorem stringifyVal_itemToJs_typed (a b : String) (c : Bool) :
    stringifyVal (itemToJs (mkTypedItem a b c)) = itemToJs (mkTypedItem a b c) := rfl

theorem stringifyArr_typed (ts : List (String × String × Bool)) :
    stringifyArr ((ts.map fun t => mkTypedItem t.1 t.2.1 t.2.2).map itemToJs) =
      (ts.map fun t => mkTypedItem t.1 t.2.1 t.2.2).map itemToJs := by
  induction ts with
  | nil => rfl
  | cons hd tl ih =>
      simp only [List.map_cons, stringifyArr, ih]
      rfl

theorem stringify_roundtrip_typed (ts : List (String × String × Bool)) :
    stringifyVal (listToJs (ts.map fun t => mkTypedItem t.1 t.2.1 t.2.2)) =
      listToJs (ts.map fun t => mkTypedItem t.1 t.2.1 t.2.2) := by
  simp only [listToJs, stringifyVal, stringifyArr_typed]

theorem newListItemOf_itemToJs (i : LitsItem) :
    newListItemOf (itemToJs i) = .ok i := rfl

theorem loadLoop_map_itemToJs (l : List LitsItem) (acc : List LitsItem) :
    loadLoop (l.map itemToJs) acc = (acc ++ l, none) := by
  induction l generalizing acc with
  | nil => simp [loadLoop]
  | cons hd tl ih =>
      simp [loadLoop, newListItemOf_itemToJs, ih]

theorem filter_idem (p : LitsItem → Bool) (l : List LitsItem) :
    (l.filter p).filter p = l.filter p := by
  induction l with
  | nil => rfl
  | cons hd tl ih =>
      by_cases hp : p hd <;> simp [List.filter_cons, hp, ih]

theorem foldl_rowOf (l : List LitsItem) (acc : List RowNode) :
    l.foldl (fun a it => rowOf it :: a) acc = (l.map rowOf).reverse ++ acc := by
  induction l generalizing acc with
  | nil => simp
  | cons hd tl ih => simp [ih]

theorem toggleAt_length (l : List LitsItem) (k : Nat) :
    (toggleAt l k).length = l.length := by
  induction l generalizing k with
  | nil => rfl
  | cons hd tl ih => cases k <;> simp [toggleAt, ih]

theorem toggleAt_get_ne (l : List LitsItem) (j k : Nat) (h : j ≠ k) :
    (toggleAt l k)[j]? = l[j]? := by
  induction l generalizing j k with
  | nil => rfl
  | cons hd tl ih =>
      cases k with
      | zero =>
          cases j with
          | zero => exact absurd rfl h
          | succ m => simp [toggleAt]
      | succ n =>
          cases j with
          | zero => simp [toggleAt]
          | succ m =>
              simpa [toggleAt] using ih m n (fun hmn => h (by simp [hmn]))

theorem toggleAt_get_self (l : List LitsItem) (k : Nat) :
    (toggleAt l k)[k]? = l[k]?.map toggleChecked := by
  induction l generalizing k with
  | nil => rfl
  | cons hd tl ih => cases k <;> simp [toggleAt, ih]

/-! ## Claim theorems -/

/-- C1: for every sequence of Items with arbitrary (id, text, completed)
triples held by the Collection, `save()` followed by `load()` (with no
intervening storage write) reconstructs an in-memory sequence equal to the
original — identical length, identical (id, text, completed) triples, same
order. -/
theorem c1_save_load_roundtrip (ts : List (String × String × Bool)) (b : Bool)
    (st : Storage) :
    load ⟨ts.map fun t => mkTypedItem t.1 t.2.1 t.2.2, b⟩
        (save ⟨ts.map fun t => mkTypedItem t.1 t.2.1 t.2.2, b⟩ st) =
      (⟨ts.map fun t => mkTypedItem t.1 t.2.1 t.2.2, b⟩, none) := by
  have h1 := getItem_save ⟨ts.map fun t => mkTypedItem t.1 t.2.1 t.2.2, b⟩ st
  simp only [load, h1, serializedOf, jsonParse]
  rw [stringify_roundtrip_typed]
  simp only [listToJs, loadLoop_map_itemToJs, List.nil_append]

/-- C2 counterexample: with a non-empty in-memory list and the storage key
absent, `load()` does modify the in-memory item sequence (it empties it),
refuting the claim that it returns without modification. -/
theorem c2_refuted :
    getItem (fun _ => none) STORAGE_KEY = none ∧
    (load ⟨[mkTypedItem "1" "a" false], false⟩ (fun _ => none)).1._list ≠
      (⟨[mkTypedItem "1" "a" false], false⟩ : FullListState)._list := by
  refine ⟨rfl, ?_⟩
  simp [load, getItem]

/-- C2 (amended): if the configured storage key is absent, `load()` returns
normally with the in-memory item sequence replaced by the empty sequence — the
clearing performed by its first statement is its only modification. -/
theorem c2_load_absent_key_clears (s : FullListState) (st : Storage)
    (h : getItem st STORAGE_KEY = none) :
    load s st = ({ s with _list := [] }, none) := by
  simp [load, h]

/-- C2 (amended) witness at a concrete non-empty state and empty storage. -/
theorem c2_load_absent_key_clears_witness :
    getItem (fun _ => none) STORAGE_KEY = none ∧
    load ⟨[mkTypedItem "1" "a" false], false⟩ (fun _ => none) =
      (⟨[], false⟩, none) :=
  ⟨rfl, c2_load_absent_key_clears ⟨[mkTypedItem "1" "a" false], false⟩ (fun _ => none) rfl⟩

/-- C3 counterexample: the stored payload `[{}]` is present and is not
well-formed JSON of `{id, text, completed}`-shaped records, yet `load()`
completes without raising any failure (the missing properties read as
`undefined` and an item is constructed from them). -/
theorem c3_refuted :
    getItem (fun k => if k = "myList" then some (.json (.vArr [.vObj []])) else none)
        STORAGE_KEY = some (.json (.vArr [.vObj []])) ∧
    specWellFormedPayload (.json (.vArr [.vObj []])) = false ∧
    (load ⟨[], false⟩
        (fun k => if k = "myList" then some (.json (.vArr [.vObj []])) else none)).2 =
      none := by
  refine ⟨?_, rfl, ?_⟩ <;> rfl

/-- C3 (amended): for every stored payload that is present but not parseable
as JSON, `load()` raises the parse failure (`SyntaxError`) and it propagates
to the caller — no branch of `load()` catches or recovers from it (the error
appears unhandled in `load`'s result).  Payloads that parse as JSON but are
wrongly shaped need not raise at all: a JSON array of records lacking the
fields is absorbed silently. -/
theorem c3_load_unparseable_raises (s : FullListState) (st : Storage)
    (h : getItem st STORAGE_KEY = some .malformed) :
    load s st = ({ s with _list := [] }, some .syntaxError) := by
  simp [load, h, jsonParse]

/-- C3 (amended) witness at a concrete state and unparseable stored payload. -/
theorem c3_load_unparseable_raises_witness :
    getItem (fun _ => some Payload.malformed) STORAGE_KEY = some .malformed ∧
    load ⟨[mkTypedItem "1" "a" false], true⟩ (fun _ => some Payload.malformed) =
      (⟨[], true⟩, some .syntaxError) :=
  ⟨rfl, c3_load_unparseable_raises ⟨[mkTypedItem "1" "a" false], true⟩
    (fun _ => some Payload.malformed) rfl⟩

/-- C4: `load()` is not atomic on failure — its first statement replaces the
in-memory sequence with the empty sequence before storage is read, so for
every prior in-memory state: a present-but-unparseable payload makes `load()`
raise the parse error with the list already emptied (the previous contents
are lost), and an absent key makes it return with the list emptied. -/
theorem c4_load_clears_before_reading (s : FullListState) (st : Storage) :
    (getItem st STORAGE_KEY = some .malformed →
      load s st = ({ s with _list := [] }, some .syntaxError)) ∧
    (getItem st STORAGE_KEY = none →
      load s st = ({ s with _list := [] }, none)) := by
  constructor <;> intro h <;> simp [load, h, jsonParse]

/-- C4 witness: both branches evaluated at a concrete non-empty prior state. -/
theorem c4_load_clears_before_reading_witness :
    load ⟨[mkTypedItem "7" "z" true], true⟩ (fun _ => some Payload.malformed) =
      (⟨[], true⟩, some .syntaxError) ∧
    load ⟨[mkTypedItem "7" "z" true], true⟩ (fun _ => none) = (⟨[], true⟩, none) :=
  ⟨(c4_load_clears_before_reading ⟨[mkTypedItem "7" "z" true], true⟩
      (fun _ => some Payload.malformed)).1 rfl,
   (c4_load_clears_before_reading ⟨[mkTypedItem "7" "z" true], true⟩
      (fun _ => none)).2 rfl⟩

/-- C5: after every call to `addItem`, `removeItem`, or `clearList`, the value
stored at the Collection's storage key equals the serialization of the current
in-memory item sequence, because `save()` (which writes exactly that
serialization) is invoked as the last step of each operation. -/
theorem c5_mutators_persist (s : FullListState) (i : LitsItem) (id : String)
    (st : Storage) :
    ((addItem s i st).2 = save (addItem s i st).1 st ∧
      getItem (addItem s i st).2 STORAGE_KEY =
        some (serializedOf (addItem s i st).1._list)) ∧
    ((removeItem s id st).2 = save (removeItem s id st).1 st ∧
      getItem (removeItem s id st).2 STORAGE_KEY =
        some (serializedOf (removeItem s id st).1._list)) ∧
    ((clearList s st).2 = save (clearList s st).1 st ∧
      getItem (clearList s st).2 STORAGE_KEY =
        some (serializedOf (clearList s st).1._list)) := by
  refine ⟨⟨rfl, ?_⟩, ⟨rfl, ?_⟩, ⟨rfl, ?_⟩⟩ <;>
    simp [addItem, removeItem, clearList, save, setItem, getItem, serializedOf]

/-- C6: `render(collection)` first removes all children of the mount point
(its result does not depend on the mount point's prior children) and prepends
one row per item in iteration order, so the visual rows are the item rows in
reverse: a list [A, B, C] (oldest to newest) displays as [C, B, A]. -/
theorem c6_render_newest_first (ul : List RowNode) (l : List LitsItem) :
    render ul l = (l.map rowOf).reverse ∧
    render ul l = render [] l ∧
    ∀ a b c : LitsItem, render ul [a, b, c] = [rowOf c, rowOf b, rowOf a] := by
  refine ⟨?_, ?_, ?_⟩
  · simpa [render, clearUl] using foldl_rowOf l []
  · rfl
  · intro a b c
    rfl

/-- C7: activating the toggle control of the rendered item in slot `k` flips
only that item's `completed` field (its id and text are untouched, via
`toggleChecked`), persists by calling `collection.save()` on the updated
state, and leaves the list length, the other elements, the subscription flag,
and the mount point's children (no re-render) unchanged. -/
theorem c7_toggle_frame (w : World) (k : Nat) :
    (checkboxChange w k).fullList._list.length = w.fullList._list.length ∧
    (∀ j, j ≠ k →
      (checkboxChange w k).fullList._list[j]? = w.fullList._list[j]?) ∧
    (checkboxChange w k).fullList._list[k]? =
      w.fullList._list[k]?.map toggleChecked ∧
    (checkboxChange w k).fullList._isSubscribed = w.fullList._isSubscribed ∧
    (checkboxChange w k).storage = save (checkboxChange w k).fullList w.storage ∧
    (checkboxChange w k).ul = w.ul := by
  refine ⟨toggleAt_length _ _, fun j hj => toggleAt_get_ne _ j k hj,
    toggleAt_get_self _ _, rfl, rfl, rfl⟩

/-- C7 witness: toggling slot 0 of a concrete two-item world flips only that
item's `completed`, leaves slot 1 and the mount point unchanged. -/
theorem c7_toggle_frame_witness :
    (checkboxChange ⟨⟨[mkTypedItem "1" "a" false, mkTypedItem "2" "b" true], false⟩,
        fun _ => none, []⟩ 0).fullList._list.length = 2 ∧
    (checkboxChange ⟨⟨[mkTypedItem "1" "a" false, mkTypedItem "2" "b" true], false⟩,
        fun _ => none, []⟩ 0).fullList._list[1]? = some (mkTypedItem "2" "b" true) ∧
    (checkboxChange ⟨⟨[mkTypedItem "1" "a" false, mkTypedItem "2" "b" true], false⟩,
        fun _ => none, []⟩ 0).fullList._list[0]? = some (mkTypedItem "1" "a" true) ∧
    (checkboxChange ⟨⟨[mkTypedItem "1" "a" false, mkTypedItem "2" "b" true], false⟩,
        fun _ => none, []⟩ 0).ul = [] :=
  ⟨(c7_toggle_frame ⟨⟨[mkTypedItem "1" "a" false, mkTypedItem "2" "b" true], false⟩,
      fun _ => none, []⟩ 0).1.trans rfl,
   ((c7_toggle_frame ⟨⟨[mkTypedItem "1" "a" false, mkTypedItem "2" "b" true], false⟩,
      fun _ => none, []⟩ 0).2.1 1 (by decide)).trans rfl,
   ((c7_toggle_frame ⟨⟨[mkTypedItem "1" "a" false, mkTypedItem "2" "b" true], false⟩,
      fun _ => none, []⟩ 0).2.2.1).trans rfl,
   (c7_toggle_frame ⟨⟨[mkTypedItem "1" "a" false, mkTypedItem "2" "b" true], false⟩,
      fun _ => none, []⟩ 0).2.2.2.2.2⟩

/-- C9: `removeItem` removes exactly the items whose id equals the given id
(a filter), is idempotent on the full observable state (in-memory list and
storage), and is a silent no-op on the list when no item has that id. -/
theorem c9_removeItem_idempotent (s : FullListState) (x : String) (st : Storage) :
    (removeItem s x st).1._list =
      s._list.filter (fun i => strictNeqStr i._id x) ∧
    removeItem (removeItem s x st).1 x (removeItem s x st).2 =
      removeItem s x st ∧
    ((∀ i ∈ s._list, strictNeqStr i._id x = true) →
      (removeItem s x st).1._list = s._list) := by
  refine ⟨rfl, ?_, ?_⟩
  · have hf := filter_idem (fun i => strictNeqStr i._id x) s._list
    simp only [removeItem, hf]
    exact congrArg _ (by simp only [save, hf, setItem_overwrite])
  · intro h
    simp only [removeItem]
    exact List.filter_eq_self.mpr h

/-- C9 witness: removing an absent id from a concrete one-item list leaves the
list unchanged, and a second `removeItem` with the same id reproduces the
state and storage of the first. -/
theorem c9_removeItem_idempotent_witness :
    (removeItem ⟨[mkTypedItem "1" "a" false], false⟩ "2" (fun _ => none)).1._list =
      [mkTypedItem "1" "a" false] ∧
    removeItem (removeItem ⟨[mkTypedItem "1" "a" false], false⟩ "2" (fun _ => none)).1
        "2" (removeItem ⟨[mkTypedItem "1" "a" false], false⟩ "2" (fun _ => none)).2 =
      removeItem ⟨[mkTypedItem "1" "a" false], false⟩ "2" (fun _ => none) :=
  ⟨(c9_removeItem_idempotent ⟨[mkTypedItem "1" "a" false], false⟩ "2"
      (fun _ => none)).2.2 (by decide),
   (c9_removeItem_idempotent ⟨[mkTypedItem "1" "a" false], false⟩ "2"
      (fun _ => none)).2.1⟩

/-- C10: after `addItem(i)` the list is the old list with `i` appended: it has
exactly one more element, its last element is `i` itself, and the previous
elements are unchanged and in their original order (the old list is a prefix). -/
theorem c10_addItem_appends (s : FullListState) (i : LitsItem) (st : Storage) :
    (addItem s i st).1._list = s._list ++ [i] ∧
    (addItem s i st).1._list.length = s._list.length + 1 ∧
    (addItem s i st).1._list.getLast? = some i ∧
    (addItem s i st).1._list.take s._list.length = s._list := by
  refine ⟨rfl, by simp [addItem], ?_, ?_⟩
  · show (s._list ++ [i]).getLast? = some i
    simp
  · show (s._list ++ [i]).take s._list.length = s._list
    simp

/-- C8 counterexample: with the listener subscribed and the stored payload
unparseable, a storage notification whose key equals the storage key does not
invoke `onChange()` — the exception escaping `load()` aborts the listener
first — refuting the unconditional "load() first and then onChange()". -/
theorem c8_refuted :
    (subscribeToStorageEvents ⟨[], false⟩ false).2 = true ∧
    some "myList" = some STORAGE_KEY ∧
    (dispatchStorageEvent (subscribeToStorageEvents ⟨[], false⟩ false).2
        (some "myList") (subscribeToStorageEvents ⟨[], false⟩ false).1
        (fun _ => some Payload.malformed)).2 = false :=
  ⟨rfl, rfl, rfl⟩

/-- C8 (amended): once `subscribeToStorageEvents` has run (from a state whose
registration matches its `_isSubscribed` flag), the listener is registered;
every notification whose key equals the storage key makes the Collection call
`load()` first and then invoke `onChange()` exactly when `load()` raised no
error (an escaping error skips `onChange()`); a notification for any other
key causes neither call and leaves the in-memory sequence unchanged. -/
theorem c8_storage_event_sync (s : FullListState) (reg : Bool) (st : Storage)
    (ek : Option String) (hreg : reg = s._isSubscribed) :
    (subscribeToStorageEvents s reg).2 = true ∧
    (ek = some STORAGE_KEY →
      (dispatchStorageEvent (subscribeToStorageEvents s reg).2 ek
          (subscribeToStorageEvents s reg).1 st).1 =
        load (subscribeToStorageEvents s reg).1 st ∧
      ((dispatchStorageEvent (subscribeToStorageEvents s reg).2 ek
          (subscribeToStorageEvents s reg).1 st).2 = true ↔
        (load (subscribeToStorageEvents s reg).1 st).2 = none)) ∧
    (ek ≠ some STORAGE_KEY →
      dispatchStorageEvent (subscribeToStorageEvents s reg).2 ek
          (subscribeToStorageEvents s reg).1 st =
        (((subscribeToStorageEvents s reg).1, none), false)) := by
  have hsub : (subscribeToStorageEvents s reg).2 = true := by
    by_cases h : s._isSubscribed <;> simp [subscribeToStorageEvents, h, hreg]
  refine ⟨hsub, ?_, ?_⟩
  · intro hk
    subst hk
    rw [hsub]
    rcases hl : load (subscribeToStorageEvents s reg).1 st with ⟨s2, err⟩
    cases err <;>
      simp [dispatchStorageEvent, storageEventHandler, hl]
  · intro hk
    rw [hsub]
    simp [dispatchStorageEvent, storageEventHandler, hk]

/-- C8 (amended) witness: a freshly subscribed collection, a matching-key
notification over well-formed storage (load runs, onChange invoked), and a
non-matching-key notification (neither call, state unchanged). -/
theorem c8_storage_event_sync_witness :
    (subscribeToStorageEvents ⟨[], false⟩ false).2 = true ∧
    (dispatchStorageEvent (subscribeToStorageEvents ⟨[], false⟩ false).2
        (some "myList") (subscribeToStorageEvents ⟨[], false⟩ false).1
        (fun _ => some (.json (.vArr [])))).1 =
      load (subscribeToStorageEvents ⟨[], false⟩ false).1
        (fun _ => some (.json (.vArr []))) ∧
    (dispatchStorageEvent (subscribeToStorageEvents ⟨[], false⟩ false).2
        (some "myList") (subscribeToStorageEvents ⟨[], false⟩ false).1
        (fun _ => some (.json (.vArr [])))).2 = true ∧
    dispatchStorageEvent (subscribeToStorageEvents ⟨[], false⟩ false).2
        (some "other") (subscribeToStorageEvents ⟨[], false⟩ false).1
        (fun _ => some (.json (.vArr []))) =
      (((subscribeToStorageEvents ⟨[], false⟩ false).1, none), false) :=
  ⟨(c8_storage_event_sync ⟨[], false⟩ false (fun _ => some (.json (.vArr [])))
      (some "myList") rfl).1,
   ((c8_storage_event_sync ⟨[], false⟩ false (fun _ => some (.json (.vArr [])))
      (some "myList") rfl).2.1 rfl).1,
   ((c8_storage_event_sync ⟨[], false⟩ false (fun _ => some (.json (.vArr [])))
      (some "myList") rfl).2.1 rfl).2.mpr rfl,
   (c8_storage_event_sync ⟨[], false⟩ false (fun _ => some (.json (.vArr [])))
      (some "other") rfl).2.2 (by decide)⟩
